import Mathlib

/-!
# Event correlation engine: shallow embedding and verification

This file embeds the event-correlation engine of `rust_core/src/correlator.rs`
in Lean 4 and proves (or refutes) the specified properties of the engine.

Floating-point timestamps are modelled as extended rationals with an explicit
NaN value (`F` below): the engine never multiplies two non-constant floats and
every numeric claim checked here is robust to f64 rounding, so exact rational
arithmetic together with IEEE special-value propagation is a faithful model.
The model has no signed zero; division by `fin 0` treats the zero as `+0.0`.
-/

/-- Model of an `f64` value: a finite rational, `+inf`, `-inf`, or NaN. -/
inductive F where
  | fin : ℚ → F
  | pinf : F
  | ninf : F
  | nan : F
deriving DecidableEq, Repr

namespace F

/-- `f64::is_nan`. -/
def isNan : F → Bool
  | .nan => true
  | _ => false

/-- IEEE subtraction (`a - b`). -/
def sub : F → F → F
  | .nan, _ => .nan
  | .fin _, .nan => .nan
  | .pinf, .nan => .nan
  | .ninf, .nan => .nan
  | .fin a, .fin b => .fin (a - b)
  | .fin _, .pinf => .ninf
  | .fin _, .ninf => .pinf
  | .pinf, .fin _ => .pinf
  | .ninf, .fin _ => .ninf
  | .pinf, .pinf => .nan
  | .pinf, .ninf => .pinf
  | .ninf, .pinf => .ninf
  | .ninf, .ninf => .nan

/-- IEEE addition (`a + b`). -/
def add : F → F → F
  | .nan, _ => .nan
  | .fin _, .nan => .nan
  | .pinf, .nan => .nan
  | .ninf, .nan => .nan
  | .fin a, .fin b => .fin (a + b)
  | .fin _, .pinf => .pinf
  | .fin _, .ninf => .ninf
  | .pinf, .fin _ => .pinf
  | .ninf, .fin _ => .ninf
  | .pinf, .pinf => .pinf
  | .pinf, .ninf => .nan
  | .ninf, .pinf => .nan
  | .ninf, .ninf => .ninf

/-- IEEE multiplication (`a * b`). -/
def mul : F → F → F
  | .nan, _ => .nan
  | .fin _, .nan => .nan
  | .pinf, .nan => .nan
  | .ninf, .nan => .nan
  | .fin a, .fin b => .fin (a * b)
  | .fin a, .pinf => if 0 < a then .pinf else if a < 0 then .ninf else .nan
  | .fin a, .ninf => if 0 < a then .ninf else if a < 0 then .pinf else .nan
  | .pinf, .fin b => if 0 < b then .pinf else if b < 0 then .ninf else .nan
  | .ninf, .fin b => if 0 < b then .ninf else if b < 0 then .pinf else .nan
  | .pinf, .pinf => .pinf
  | .pinf, .ninf => .ninf
  | .ninf, .pinf => .ninf
  | .ninf, .ninf => .pinf

/-- IEEE division (`a / b`); the model's `fin 0` divisor acts as `+0.0`. -/
def div : F → F → F
  | .nan, _ => .nan
  | .fin _, .nan => .nan
  | .pinf, .nan => .nan
  | .ninf, .nan => .nan
  | .fin a, .fin b =>
      if b = 0 then (if a = 0 then .nan else if 0 < a then .pinf else .ninf)
      else .fin (a / b)
  | .fin _, .pinf => .fin 0
  | .fin _, .ninf => .fin 0
  | .pinf, .fin b => if b < 0 then .ninf else .pinf
  | .ninf, .fin b => if b < 0 then .pinf else .ninf
  | .pinf, .pinf => .nan
  | .pinf, .ninf => .nan
  | .ninf, .pinf => .nan
  | .ninf, .ninf => .nan

/-- `PartialOrd::partial_cmp` on `f64`: `none` iff either operand is NaN. -/
def partialCmp : F → F → Option Ordering
  | .nan, _ => none
  | .fin _, .nan => none
  | .pinf, .nan => none
  | .ninf, .nan => none
  | .fin a, .fin b => some (if a < b then .lt else if b < a then .gt else .eq)
  | .fin _, .pinf => some .lt
  | .fin _, .ninf => some .gt
  | .pinf, .fin _ => some .gt
  | .pinf, .pinf => some .eq
  | .pinf, .ninf => some .gt
  | .ninf, .fin _ => some .lt
  | .ninf, .pinf => some .lt
  | .ninf, .ninf => some .eq

/-- IEEE `<` as a Bool: false whenever a NaN is involved. -/
def ltb (a b : F) : Bool :=
  match partialCmp a b with
  | some .lt => true
  | _ => false

/-- IEEE `>` as a Bool: false whenever a NaN is involved. -/
def gtb (a b : F) : Bool :=
  match partialCmp a b with
  | some .gt => true
  | _ => false

/-- IEEE `>=` as a Bool: false whenever a NaN is involved. -/
def geb (a b : F) : Bool :=
  match partialCmp a b with
  | some .gt => true
  | some .eq => true
  | _ => false

/-- IEEE `<=` as a Bool: false whenever a NaN is involved. -/
def leb (a b : F) : Bool :=
  match partialCmp a b with
  | some .lt => true
  | some .eq => true
  | _ => false

/-- Rust `f64::min` (IEEE 754-2008 minNum): if one argument is NaN, the OTHER
argument is returned; so `minF nan x = x`. -/
def minF (a b : F) : F :=
  if a.isNan then b
  else if b.isNan then a
  else if ltb a b then a else b

end F

/-- `Event` from `correlator.rs`: the `data` HashMap is modelled as an
association list (key-uniqueness, which the HashMap enforces, appears as a
`Nodup` hypothesis where a proof needs it). -/
structure Event where
  event_id : String
  event_type : String
  timestamp : F
  data : List (String × String)
deriving DecidableEq, Repr

/-- `Correlation` from `correlator.rs`. -/
structure Correlation where
  source_event_id : String
  target_event_id : String
  confidence : F
  time_delta_ms : F
  correlation_type : String
deriving DecidableEq, Repr

/-- `RustCorrelator`: the event store plus the two thresholds. -/
structure RustCorrelator where
  events : List Event
  max_time_delta_ms : F
  min_confidence : F
deriving DecidableEq, Repr

/-- The comparator passed to `sort_by` in `correlate_events`:
`a.timestamp.partial_cmp(&b.timestamp).unwrap_or(Ordering::Greater)`. -/
def timestampCmp (a b : Event) : Ordering :=
  (F.partialCmp a.timestamp b.timestamp).getD .gt

/-- The `is_less` test a comparison sort derives from the comparator
(`compare(a, b) == Ordering::Less`). -/
def eventIsLess (a b : Event) : Bool :=
  match timestampCmp a b with
  | .lt => true
  | _ => false

/-- One step of stable insertion: the prefix is kept reversed (rightmost
element first) and the new element `x` moves left past `p` exactly while
`lt x p` holds, as in the in-place insertion sort Rust's `slice::sort_by`
runs on short slices. -/
def revIns (lt : α → α → Bool) (x : α) : List α → List α
  | [] => [x]
  | p :: r => if lt x p then p :: revIns lt x r else x :: p :: r

/-- Insertion-sort loop over the pending list, accumulating the sorted
prefix in reversed order. -/
def insSortAux (lt : α → α → Bool) : List α → List α → List α
  | acc, [] => acc.reverse
  | acc, x :: xs => insSortAux lt (revIns lt x acc) xs

/-- Model of Rust's stable `slice::sort_by`. For a comparator implementing a
total order this is the unique stable sort; for the slice lengths arising in
the concrete inputs below it is exactly the insertion sort the standard
library runs. -/
def insertionSort (lt : α → α → Bool) (l : List α) : List α :=
  insSortAux lt [] l

/-- `RustCorrelator::should_correlate`. -/
def shouldCorrelate (source_type target_type : String) : Bool :=
  (source_type == "UI_INTERACTION" && target_type == "API_CALL") ||
  (source_type == "API_CALL" && target_type == "API_RESPONSE") ||
  (source_type == "API_RESPONSE" && target_type == "NAVIGATION") ||
  (source_type == "API_RESPONSE" && target_type == "SCREEN_CHANGE") ||
  (source_type == "UI_INTERACTION" && target_type == "NAVIGATION")

/-- `RustCorrelator::are_compatible_types` (delegates to `should_correlate`). -/
def areCompatibleTypes (source_type target_type : String) : Bool :=
  shouldCorrelate source_type target_type

/-- Key list of an event's `data` map. -/
def dataKeys (d : List (String × String)) : List String := d.map Prod.fst

/-- `RustCorrelator::calculate_data_similarity`: fraction of shared keys whose
values coincide; `0.0` when either map is empty or no key is shared. -/
def calculateDataSimilarity (source target : Event) : F :=
  if source.data.isEmpty || target.data.isEmpty then .fin 0
  else
    let common_keys := (dataKeys source.data).filter
      (fun k => (dataKeys target.data).contains k)
    if common_keys.isEmpty then .fin 0
    else
      let matched := common_keys.countP
        (fun k => List.lookup k source.data == List.lookup k target.data)
      .fin ((matched : ℚ) / (common_keys.length : ℚ))

/-- `RustCorrelator::calculate_confidence`: `0.4·time_score + 0.3·type bonus
+ 0.3·data similarity`, then `f64::min(confidence, 1.0)`. -/
def calculateConfidence (maxDelta : F) (source target : Event)
    (time_delta : F) : F :=
  let time_score := F.sub (.fin 1) (F.div time_delta maxDelta)
  let c1 := F.add (.fin 0) (F.mul time_score (.fin (2/5)))
  let c2 := if areCompatibleTypes source.event_type target.event_type
            then F.add c1 (.fin (3/10)) else c1
  let c3 := F.add c2 (F.mul (calculateDataSimilarity source target) (.fin (3/10)))
  F.minF c3 (.fin 1)

/-- One character of `normalize_event_type`: uppercase, then a space (which
uppercasing leaves unchanged) becomes an underscore. -/
def normalizeChar (c : Char) : Char :=
  let u := c.toUpper
  if u = ' ' then '_' else u

/-- `RustCorrelator::normalize_event_type`
(`event_type.to_uppercase().replace(' ', "_")`), stated character-wise. -/
def normalizeEventType (event_type : String) : String :=
  String.mk (event_type.data.map normalizeChar)

/-- The inner loop of `correlate_events`: scan the events after the source in
sorted order, `break` on `time_delta > max_time_delta_ms`, skip incompatible
types, and emit a `Correlation` when the confidence passes the threshold. -/
def scanTargets (maxDelta minConf : F) (source : Event) :
    List Event → List Correlation
  | [] => []
  | target :: rest =>
    let time_delta := F.sub target.timestamp source.timestamp
    if F.gtb time_delta maxDelta then []
    else if shouldCorrelate source.event_type target.event_type then
      let confidence := calculateConfidence maxDelta source target time_delta
      if F.geb confidence minConf then
        { source_event_id := source.event_id
          target_event_id := target.event_id
          confidence := confidence
          time_delta_ms := time_delta
          correlation_type :=
            normalizeEventType source.event_type ++ "_" ++
              normalizeEventType target.event_type } ::
          scanTargets maxDelta minConf source rest
      else scanTargets maxDelta minConf source rest
    else scanTargets maxDelta minConf source rest

/-- The outer loop of `correlate_events`: every sorted position as source,
each scanning the events after it. -/
def scanSources (maxDelta minConf : F) : List Event → List Correlation
  | [] => []
  | s :: rest =>
    scanTargets maxDelta minConf s rest ++ scanSources maxDelta minConf rest

/-- `RustCorrelator::correlate_events`: sort a snapshot of the store with the
NaN-defaulting comparator, then run the pairwise scan. -/
def correlateEvents (c : RustCorrelator) : List Correlation :=
  scanSources c.max_time_delta_ms c.min_confidence
    (insertionSort eventIsLess c.events)

/-- Result record of `RustCorrelator::get_statistics`. -/
structure Statistics where
  total_correlations : Nat
  avg_confidence : F
  avg_time_delta_ms : F
  by_type : List (String × Nat)
deriving DecidableEq, Repr

/-- `.iter().map(...).sum::<f64>()`. -/
def sumF (l : List F) : F := l.foldl F.add (.fin 0)

/-- `*by_type.entry(t).or_insert(0) += 1` on the association-list model. -/
def bumpType : List (String × Nat) → String → List (String × Nat)
  | [], k => [(k, 1)]
  | (k', n) :: rest, k =>
      if k' == k then (k', n + 1) :: rest else (k', n) :: bumpType rest k

/-- `RustCorrelator::get_statistics`: averages guarded by `total > 0`. -/
def getStatistics (c : RustCorrelator) : Statistics :=
  let correlations := correlateEvents c
  let total := correlations.length
  let avg_confidence :=
    if 0 < total then
      F.div (sumF (correlations.map (·.confidence))) (.fin (total : ℚ))
    else .fin 0
  let avg_time_delta :=
    if 0 < total then
      F.div (sumF (correlations.map (·.time_delta_ms))) (.fin (total : ℚ))
    else .fin 0
  let by_type := correlations.foldl (fun m corr => bumpType m corr.correlation_type) []
  ⟨total, avg_confidence, avg_time_delta, by_type⟩

/-- `RustCorrelator::correlate_ui_to_api`: full cross-product of
`UI_INTERACTION` sources and `API_CALL` targets, skipping pairs with
`time_delta < 0.0 || time_delta > max_time_delta_ms`. -/
def correlateUiToApi (c : RustCorrelator) : List Correlation :=
  c.events.flatMap (fun ui_event =>
    if ui_event.event_type != "UI_INTERACTION" then []
    else c.events.filterMap (fun api_event =>
      if api_event.event_type != "API_CALL" then none
      else
        let time_delta := F.sub api_event.timestamp ui_event.timestamp
        if F.ltb time_delta (.fin 0) || F.gtb time_delta c.max_time_delta_ms then none
        else
          let confidence :=
            calculateConfidence c.max_time_delta_ms ui_event api_event time_delta
          if F.geb confidence c.min_confidence then
            some { source_event_id := ui_event.event_id
                   target_event_id := api_event.event_id
                   confidence := confidence
                   time_delta_ms := time_delta
                   correlation_type := "UI_TO_API" }
          else none))

/-! ## Concrete inputs used by the claims -/

/-- Scenario 1 source: `UI_INTERACTION` at t = 1000, no data. -/
def uiEvent : Event := ⟨"u1", "UI_INTERACTION", .fin 1000, []⟩

/-- Scenario 1 target: `API_CALL` at t = 1050, no data. -/
def apiEvent : Event := ⟨"a1", "API_CALL", .fin 1050, []⟩

/-- A NaN-timestamped `NAVIGATION` event, type-compatible with `uiEvent`. -/
def nanNavEvent : Event := ⟨"n_nan", "NAVIGATION", .nan, []⟩

/-- Correlator with default thresholds holding the NaN-mixed collection. -/
def nanMixCorrelator : RustCorrelator :=
  ⟨[uiEvent, apiEvent, nanNavEvent], .fin 5000, .fin (1/2)⟩

/-- Scenario 2 source: `UI_INTERACTION` at t = 1000 with data screen=A. -/
def uiScreenEvent : Event := ⟨"u1", "UI_INTERACTION", .fin 1000, [("screen", "A")]⟩

/-- Scenario 2 target: `NAVIGATION` at t = 1100 with data screen=A. -/
def navScreenEvent : Event := ⟨"n1", "NAVIGATION", .fin 1100, [("screen", "A")]⟩

/-- A NaN-timestamped `UI_INTERACTION` event. -/
def nanUiEvent : Event := ⟨"e_nan", "UI_INTERACTION", .nan, []⟩

/-- A finite `API_CALL` event at t = 1000. -/
def finApiEvent : Event := ⟨"e1", "API_CALL", .fin 1000, []⟩

/-- Tie pair: `UI_INTERACTION` at t = 1000. -/
def tieUiEvent : Event := ⟨"a", "UI_INTERACTION", .fin 1000, []⟩

/-- Tie pair: `API_CALL` at the same t = 1000. -/
def tieApiEvent : Event := ⟨"b", "API_CALL", .fin 1000, []⟩

/-! ## Helper lemmas for concrete evaluation -/

/-- `correlation_type` label of a (UI_INTERACTION, API_CALL) pair. -/
theorem normTypeUiApi :
    normalizeEventType "UI_INTERACTION" ++ "_" ++ normalizeEventType "API_CALL" =
      "UI_INTERACTION_API_CALL" := by decide

/-- `correlation_type` label of a (UI_INTERACTION, NAVIGATION) pair. -/
theorem normTypeUiNav :
    normalizeEventType "UI_INTERACTION" ++ "_" ++ normalizeEventType "NAVIGATION" =
      "UI_INTERACTION_NAVIGATION" := by decide

/-! ## Order-theoretic facts about the comparator and the sort -/

/-- `eventIsLess` coincides with strict IEEE `<` on the timestamps: the
`unwrap_or(Greater)` default can never produce `Less`. -/
theorem eventIsLess_eq_ltb (a b : Event) :
    eventIsLess a b = F.ltb a.timestamp b.timestamp := by
  unfold eventIsLess F.ltb timestampCmp
  cases F.partialCmp a.timestamp b.timestamp with
  | none => rfl
  | some o => cases o <;> rfl

/-- `<` on two finite values decides the rational comparison. -/
theorem F.ltb_fin_fin (a b : ℚ) : F.ltb (.fin a) (.fin b) = decide (a < b) := by
  simp only [F.ltb, F.partialCmp]
  by_cases h : a < b
  · simp [h]
  · by_cases h2 : b < a <;> simp [h, h2]

/-- A finite value is `<` `+inf`. -/
theorem F.ltb_fin_pinf (a : ℚ) : F.ltb (.fin a) .pinf = true := rfl

/-- A finite value is not `<` `-inf`. -/
theorem F.ltb_fin_ninf (a : ℚ) : F.ltb (.fin a) .ninf = false := rfl

/-- Comparison with NaN on the right is false. -/
theorem F.ltb_fin_nan (a : ℚ) : F.ltb (.fin a) .nan = false := rfl

/-- `+inf` is not `<` a finite value. -/
theorem F.ltb_pinf_fin (b : ℚ) : F.ltb .pinf (.fin b) = false := rfl

/-- `+inf` is not `<` `+inf`. -/
theorem F.ltb_pinf_pinf : F.ltb .pinf .pinf = false := rfl

/-- `+inf` is not `<` `-inf`. -/
theorem F.ltb_pinf_ninf : F.ltb .pinf .ninf = false := rfl

/-- Comparison with NaN on the right is false. -/
theorem F.ltb_pinf_nan : F.ltb .pinf .nan = false := rfl

/-- `-inf` is `<` every finite value. -/
theorem F.ltb_ninf_fin (b : ℚ) : F.ltb .ninf (.fin b) = true := rfl

/-- `-inf` is `<` `+inf`. -/
theorem F.ltb_ninf_pinf : F.ltb .ninf .pinf = true := rfl

/-- `-inf` is not `<` `-inf`. -/
theorem F.ltb_ninf_ninf : F.ltb .ninf .ninf = false := rfl

/-- Comparison with NaN on the right is false. -/
theorem F.ltb_ninf_nan : F.ltb .ninf .nan = false := rfl

/-- Comparison with NaN on the left is false. -/
theorem F.ltb_nan (y : F) : F.ltb .nan y = false := by cases y <;> rfl

/-- IEEE `<` is asymmetric, NaN included. -/
theorem F.ltb_asymm (x y : F) : F.ltb x y = true → F.ltb y x = false := by
  cases x <;> cases y <;>
    simp [F.ltb_fin_fin, F.ltb_fin_pinf, F.ltb_fin_ninf, F.ltb_fin_nan,
      F.ltb_pinf_fin, F.ltb_pinf_pinf, F.ltb_pinf_ninf, F.ltb_pinf_nan,
      F.ltb_ninf_fin, F.ltb_ninf_pinf, F.ltb_ninf_ninf, F.ltb_ninf_nan,
      F.ltb_nan] <;>
    intro h <;> linarith

/-- IEEE `<` is transitive (vacuously so when a NaN is involved). -/
theorem F.ltb_trans (x y z : F) :
    F.ltb x y = true → F.ltb y z = true → F.ltb x z = true := by
  cases x <;> cases y <;> cases z <;>
    simp [F.ltb_fin_fin, F.ltb_fin_pinf, F.ltb_fin_ninf, F.ltb_fin_nan,
      F.ltb_pinf_fin, F.ltb_pinf_pinf, F.ltb_pinf_ninf, F.ltb_pinf_nan,
      F.ltb_ninf_fin, F.ltb_ninf_pinf, F.ltb_ninf_ninf, F.ltb_ninf_nan,
      F.ltb_nan] <;>
    intro h h2 <;> linarith

/-- Two non-NaN values neither of which is `<` the other are equal. -/
theorem F.eq_of_not_ltb (x y : F) (hx : x.isNan = false) (hy : y.isNan = false)
    (h1 : F.ltb x y = false) (h2 : F.ltb y x = false) : x = y := by
  cases x <;> cases y <;>
    simp_all [F.ltb_fin_fin, F.ltb_fin_pinf, F.ltb_fin_ninf, F.ltb_fin_nan,
      F.ltb_pinf_fin, F.ltb_pinf_pinf, F.ltb_pinf_ninf, F.ltb_pinf_nan,
      F.ltb_ninf_fin, F.ltb_ninf_pinf, F.ltb_ninf_ninf, F.ltb_ninf_nan,
      F.ltb_nan, F.isNan] <;>
    linarith

/-- Inserting into the reversed prefix permutes `x` into it. -/
theorem revIns_perm (lt : α → α → Bool) (x : α) (r : List α) :
    (revIns lt x r).Perm (x :: r) := by
  induction r with
  | nil => simp [revIns]
  | cons p rest ih =>
    simp only [revIns]
    by_cases h : lt x p = true
    · simp only [h, if_true]
      exact (ih.cons p).trans (List.Perm.swap x p rest)
    · simp [h]

/-- The insertion-sort loop permutes its two inputs into the output. -/
theorem insSortAux_perm (lt : α → α → Bool) :
    ∀ (pend acc : List α), (insSortAux lt acc pend).Perm (acc.reverse ++ pend)
  | [], acc => by simp [insSortAux]
  | x :: xs, acc => by
    simp only [insSortAux]
    refine (insSortAux_perm lt xs (revIns lt x acc)).trans ?_
    have h1 : ((revIns lt x acc).reverse ++ xs).Perm (x :: (acc ++ xs)) := by
      simpa using
        ((List.reverse_perm (revIns lt x acc)).trans
          (revIns_perm lt x acc)).append_right xs
    have h2 : (acc.reverse ++ (x :: xs)).Perm (x :: (acc ++ xs)) :=
      List.perm_middle.trans (((List.reverse_perm acc).append_right xs).cons x)
    exact h1.trans h2.symm

/-- The sort returns a permutation of its input. -/
theorem insertionSort_perm (lt : α → α → Bool) (l : List α) :
    (insertionSort lt l).Perm l := by
  simpa using insSortAux_perm lt l []

/-- Insertion preserves the reversed-prefix sortedness invariant, given
asymmetry and, on elements satisfying `P`, negative transitivity. -/
theorem revIns_pairwise {lt : α → α → Bool} {P : α → Prop}
    (hasym : ∀ a b, lt a b = true → lt b a = false)
    (hco : ∀ a b c, P a → P b → P c →
      lt a b = false → lt b c = false → lt a c = false)
    {x : α} {r : List α} (hPx : P x) (hPr : ∀ a ∈ r, P a)
    (hr : r.Pairwise (fun a b => lt a b = false)) :
    (revIns lt x r).Pairwise (fun a b => lt a b = false) := by
  induction r with
  | nil => simp [revIns]
  | cons p rest ih =>
    simp only [revIns]
    by_cases h : lt x p = true
    · rw [if_pos h, List.pairwise_cons]
      refine ⟨?_, ?_⟩
      · intro v hv
        rcases List.mem_cons.mp ((revIns_perm lt x rest).mem_iff.mp hv) with
          rfl | hvrest
        · exact hasym _ _ h
        · exact List.rel_of_pairwise_cons hr hvrest
      · exact ih (fun a ha => hPr a (List.mem_cons_of_mem p ha))
          (List.Pairwise.of_cons hr)
    · have hfalse : lt x p = false := by
        simpa using h
      rw [if_neg h, List.pairwise_cons]
      refine ⟨?_, hr⟩
      intro v hv
      rcases List.mem_cons.mp hv with hvp | hvrest
      · subst hvp; exact hfalse
      · exact hco x p v hPx (hPr p (List.mem_cons_self ..))
          (hPr v (List.mem_cons_of_mem _ hvrest)) hfalse
          (List.rel_of_pairwise_cons hr hvrest)

/-- The insertion-sort loop produces a `≤`-pairwise output (where `a ≤ b`
means `¬ lt b a`). -/
theorem insSortAux_pairwise {lt : α → α → Bool} {P : α → Prop}
    (hasym : ∀ a b, lt a b = true → lt b a = false)
    (hco : ∀ a b c, P a → P b → P c →
      lt a b = false → lt b c = false → lt a c = false) :
    ∀ (pend acc : List α), (∀ a ∈ acc, P a) → (∀ a ∈ pend, P a) →
      acc.Pairwise (fun a b => lt a b = false) →
      (insSortAux lt acc pend).Pairwise (fun a b => lt b a = false)
  | [], acc, _, _, hp => by
    simp only [insSortAux]
    exact List.pairwise_reverse.mpr hp
  | x :: xs, acc, hacc, hpend, hp => by
    simp only [insSortAux]
    refine insSortAux_pairwise hasym hco xs (revIns lt x acc) ?_ ?_ ?_
    · intro a ha
      rcases List.mem_cons.mp ((revIns_perm lt x acc).mem_iff.mp ha) with h | h
      · subst h; exact hpend a (List.mem_cons_self ..)
      · exact hacc a h
    · intro a ha; exact hpend a (List.mem_cons_of_mem _ ha)
    · exact revIns_pairwise hasym hco (hpend x (List.mem_cons_self ..)) hacc hp

/-- The sort output is `≤`-pairwise when all elements satisfy `P`. -/
theorem insertionSort_pairwise {lt : α → α → Bool} {P : α → Prop}
    (hasym : ∀ a b, lt a b = true → lt b a = false)
    (hco : ∀ a b c, P a → P b → P c →
      lt a b = false → lt b c = false → lt a c = false)
    (l : List α) (hP : ∀ a ∈ l, P a) :
    (insertionSort lt l).Pairwise (fun a b => lt b a = false) :=
  insSortAux_pairwise hasym hco l [] (by simp) hP (by simp)

/-- The event comparator is asymmetric. -/
theorem eventIsLess_asymm (a b : Event) :
    eventIsLess a b = true → eventIsLess b a = false := by
  rw [eventIsLess_eq_ltb, eventIsLess_eq_ltb]
  exact F.ltb_asymm _ _

/-- Negative transitivity of IEEE `<` for non-NaN left operands. -/
theorem F.not_ltb_trans (x y z : F) (hx : x.isNan = false)
    (hy : y.isNan = false) (h1 : F.ltb x y = false) (h2 : F.ltb y z = false) :
    F.ltb x z = false := by
  cases hxz : F.ltb x z with
  | false => rfl
  | true =>
    exfalso
    cases hyx : F.ltb y x with
    | true => exact absurd (F.ltb_trans y x z hyx hxz) (by simp [h2])
    | false =>
      have hxy : x = y := F.eq_of_not_ltb x y hx hy h1 hyx
      subst hxy
      exact absurd hxz (by simp [h2])

/-- Negative transitivity of the event comparator on NaN-free events. -/
theorem eventIsLess_co (a b c : Event)
    (ha : a.timestamp.isNan = false) (hb : b.timestamp.isNan = false) :
    eventIsLess a b = false → eventIsLess b c = false →
      eventIsLess a c = false := by
  rw [eventIsLess_eq_ltb, eventIsLess_eq_ltb, eventIsLess_eq_ltb]
  exact F.not_ltb_trans _ _ _ ha hb

/-- On NaN-free events with distinct timestamps the comparator is total. -/
theorem eventIsLess_total_of_ne (u v : Event)
    (hu : u.timestamp.isNan = false) (hv : v.timestamp.isNan = false)
    (hne : u.timestamp ≠ v.timestamp) (h : eventIsLess v u = false) :
    eventIsLess u v = true := by
  rw [eventIsLess_eq_ltb] at h ⊢
  cases huv : F.ltb u.timestamp v.timestamp with
  | true => rfl
  | false => exact absurd (F.eq_of_not_ltb _ _ hu hv huv h) hne

/-- On a NaN-free, duplicate-free-timestamp snapshot the sort output is
strictly increasing. -/
theorem insertionSort_pairwise_strict (l : List Event)
    (hnan : ∀ e ∈ l, e.timestamp.isNan = false)
    (hdist : l.Pairwise (fun a b => a.timestamp ≠ b.timestamp)) :
    (insertionSort eventIsLess l).Pairwise
      (fun a b => eventIsLess a b = true) := by
  have hle : (insertionSort eventIsLess l).Pairwise
      (fun a b => eventIsLess b a = false) :=
    insertionSort_pairwise (P := fun e => e.timestamp.isNan = false)
      eventIsLess_asymm
      (fun a b c pa pb _ => eventIsLess_co a b c pa pb) l hnan
  have hdist2 : (insertionSort eventIsLess l).Pairwise
      (fun a b => a.timestamp ≠ b.timestamp) :=
    ((insertionSort_perm eventIsLess l).pairwise_iff
      (fun h => Ne.symm h)).mpr hdist
  refine (hle.and hdist2).imp_of_mem ?_
  intro a b ha hb hab
  exact eventIsLess_total_of_ne a b
    (hnan a ((insertionSort_perm eventIsLess l).mem_iff.mp ha))
    (hnan b ((insertionSort_perm eventIsLess l).mem_iff.mp hb)) hab.2 hab.1

/-- On NaN-free snapshots with pairwise-distinct timestamps the sorted order
is independent of insertion order. -/
theorem insertionSort_eq_of_perm (l₁ l₂ : List Event)
    (hperm : l₁.Perm l₂)
    (hnan : ∀ e ∈ l₁, e.timestamp.isNan = false)
    (hdist : l₁.Pairwise (fun a b => a.timestamp ≠ b.timestamp)) :
    insertionSort eventIsLess l₁ = insertionSort eventIsLess l₂ := by
  have hnan2 : ∀ e ∈ l₂, e.timestamp.isNan = false := fun e he =>
    hnan e (hperm.mem_iff.mpr he)
  have hdist2 : l₂.Pairwise (fun a b => a.timestamp ≠ b.timestamp) :=
    (hperm.pairwise_iff (fun h => Ne.symm h)).mp hdist
  haveI : IsAntisymm Event (fun a b => eventIsLess a b = true) :=
    ⟨fun a b h1 h2 => absurd h2 (by simp [eventIsLess_asymm a b h1])⟩
  exact List.eq_of_perm_of_sorted
    ((insertionSort_perm eventIsLess l₁).trans
      (hperm.trans (insertionSort_perm eventIsLess l₂).symm))
    (insertionSort_pairwise_strict l₁ hnan hdist)
    (insertionSort_pairwise_strict l₂ hnan2 hdist2)

/-! ## Claim theorems -/

/-- C1: REFUTED ON THE CODE (code bug). With `uiEvent` (t=1000), `apiEvent`
(t=1050) and the NaN-timestamped, type-compatible `nanNavEvent`, the main scan
does terminate without error and keeps the valid correlation u1 → a1, but it
ALSO emits u1 → n_nan with confidence 1.0 and `time_delta_ms = NaN`: the NaN
confidence is turned into 1.0 by `confidence.min(1.0)`, because `f64::min`
returns the other operand when one argument is NaN. The claim says a NaN-delta
pair is never selected. -/
theorem c1_nan_event_selected :
    correlateEvents nanMixCorrelator =
      [⟨"u1", "a1", .fin (87/125), .fin 50, "UI_INTERACTION_API_CALL"⟩,
       ⟨"u1", "n_nan", .fin 1, .nan, "UI_INTERACTION_NAVIGATION"⟩] := by
  simp [correlateEvents, correlateUiToApi, insertionSort, insSortAux, revIns,
    eventIsLess, timestampCmp, F.partialCmp, scanSources, scanTargets, F.sub,
    F.gtb, F.geb, F.ltb, F.minF, F.isNan, calculateConfidence,
    calculateDataSimilarity, areCompatibleTypes, shouldCorrelate, F.add, F.mul,
    F.div, dataKeys, List.lookup, List.flatMap, List.filterMap, List.countP, List.countP.go,
    String.reduceEq, String.reduceBEq,
    normTypeUiApi, normTypeUiNav, uiEvent, apiEvent, nanNavEvent,
    nanMixCorrelator, uiScreenEvent, navScreenEvent, nanUiEvent, finApiEvent,
    tieUiEvent, tieApiEvent]
  all_goals norm_num

/-- C2: REFUTED ON THE CODE (code bug). The main scan emits a correlation with
`time_delta_ms = NaN` (hence not `≥ 0`) for the NaN-mixed collection, and the
directional view `correlate_ui_to_api` does the same, because the NaN time
delta passes the `< 0 / > max` window checks (both comparisons are false for
NaN) and `f64::min` turns the NaN confidence into 1.0. -/
theorem c2_time_delta_invariant_violated :
    ((correlateEvents nanMixCorrelator).map (·.time_delta_ms) =
        [.fin 50, .nan] ∧
      F.geb .nan (.fin 0) = false) ∧
    (correlateUiToApi ⟨[uiEvent, ⟨"a_nan", "API_CALL", .nan, []⟩],
        .fin 5000, .fin (1/2)⟩).map (·.time_delta_ms) = [.nan] := by
  simp [correlateEvents, correlateUiToApi, insertionSort, insSortAux, revIns,
    eventIsLess, timestampCmp, F.partialCmp, scanSources, scanTargets, F.sub,
    F.gtb, F.geb, F.ltb, F.minF, F.isNan, calculateConfidence,
    calculateDataSimilarity, areCompatibleTypes, shouldCorrelate, F.add, F.mul,
    F.div, dataKeys, List.lookup, List.flatMap, List.filterMap, List.countP, List.countP.go,
    String.reduceEq, String.reduceBEq,
    normTypeUiApi, normTypeUiNav, uiEvent, apiEvent, nanNavEvent,
    nanMixCorrelator, uiScreenEvent, navScreenEvent, nanUiEvent, finApiEvent,
    tieUiEvent, tieApiEvent]
  all_goals norm_num

/-- C3 counterexample: the claim asserts the computed confidence for Scenario 2
equals 1.0 after clamping; the code computes 0.4·0.98 + 0.3 + 0.3 = 0.992
(the spec's arithmetic `0.4·0.98+0.3+0.3 = 1.0` is wrong), and 0.992 < 1 so no
clamping occurs. -/
theorem c3_confidence_ne_one :
    (correlateEvents ⟨[uiScreenEvent, navScreenEvent], .fin 5000, .fin (1/2)⟩).map
        (·.confidence) = [.fin (124/125)] ∧
      F.fin (124/125) ≠ F.fin 1 := by
  simp [correlateEvents, correlateUiToApi, insertionSort, insSortAux, revIns,
    eventIsLess, timestampCmp, F.partialCmp, scanSources, scanTargets, F.sub,
    F.gtb, F.geb, F.ltb, F.minF, F.isNan, calculateConfidence,
    calculateDataSimilarity, areCompatibleTypes, shouldCorrelate, F.add, F.mul,
    F.div, dataKeys, List.lookup, List.flatMap, List.filterMap, List.countP, List.countP.go,
    String.reduceEq, String.reduceBEq,
    normTypeUiApi, normTypeUiNav, uiEvent, apiEvent, nanNavEvent,
    nanMixCorrelator, uiScreenEvent, navScreenEvent, nanUiEvent, finApiEvent,
    tieUiEvent, tieApiEvent]
  all_goals norm_num

/-- C3 amended: for Scenario 2 the pair is type-allowed, `data_similarity` is
1.0, the computed confidence is 0.4·0.98 + 0.3 + 0.3 = 0.992 (no clamping is
needed since 0.992 < 1), and exactly one correlation u1 → n1 is emitted. -/
theorem c3_scenario_two_amended :
    shouldCorrelate "UI_INTERACTION" "NAVIGATION" = true ∧
    calculateDataSimilarity uiScreenEvent navScreenEvent = .fin 1 ∧
    correlateEvents ⟨[uiScreenEvent, navScreenEvent], .fin 5000, .fin (1/2)⟩ =
      [⟨"u1", "n1", .fin (124/125), .fin 100, "UI_INTERACTION_NAVIGATION"⟩] := by
  simp [correlateEvents, correlateUiToApi, insertionSort, insSortAux, revIns,
    eventIsLess, timestampCmp, F.partialCmp, scanSources, scanTargets, F.sub,
    F.gtb, F.geb, F.ltb, F.minF, F.isNan, calculateConfidence,
    calculateDataSimilarity, areCompatibleTypes, shouldCorrelate, F.add, F.mul,
    F.div, dataKeys, List.lookup, List.flatMap, List.filterMap, List.countP, List.countP.go,
    String.reduceEq, String.reduceBEq,
    normTypeUiApi, normTypeUiNav, uiEvent, apiEvent, nanNavEvent,
    nanMixCorrelator, uiScreenEvent, navScreenEvent, nanUiEvent, finApiEvent,
    tieUiEvent, tieApiEvent]
  all_goals norm_num

/-- C4: REFUTED ON THE CODE (code bug). The comparator
`partial_cmp(..).unwrap_or(Greater)` answers `Greater` whichever operand is
NaN (it is asymmetric, hence not a total order), so the stable sort never
moves a NaN-timestamped event: inserted first, it STAYS BEFORE a finite
event, contradicting both the claim and the code's own comment
("treat NaN as greater than any value"). -/
theorem c4_nan_not_placed_after :
    timestampCmp nanUiEvent finApiEvent = .gt ∧
    timestampCmp finApiEvent nanUiEvent = .gt ∧
    insertionSort eventIsLess [nanUiEvent, finApiEvent] =
      [nanUiEvent, finApiEvent] := by
  simp [correlateEvents, correlateUiToApi, insertionSort, insSortAux, revIns,
    eventIsLess, timestampCmp, F.partialCmp, scanSources, scanTargets, F.sub,
    F.gtb, F.geb, F.ltb, F.minF, F.isNan, calculateConfidence,
    calculateDataSimilarity, areCompatibleTypes, shouldCorrelate, F.add, F.mul,
    F.div, dataKeys, List.lookup, List.flatMap, List.filterMap, List.countP, List.countP.go,
    String.reduceEq, String.reduceBEq,
    normTypeUiApi, normTypeUiNav, uiEvent, apiEvent, nanNavEvent,
    nanMixCorrelator, uiScreenEvent, navScreenEvent, nanUiEvent, finApiEvent,
    tieUiEvent, tieApiEvent]

/-- C5 counterexample: two events with EQUAL timestamps (no NaN involved).
In insertion order [ui, api] the stable sort keeps ui first and the allowed
pair (UI_INTERACTION, API_CALL) is emitted; in order [api, ui] the scan only
sees the disallowed pair (API_CALL, UI_INTERACTION) and emits nothing, so the
correlation set is NOT permutation-invariant. -/
theorem c5_tied_timestamps_order_dependent :
    (correlateEvents ⟨[tieUiEvent, tieApiEvent], .fin 5000, .fin (1/2)⟩).map
        (fun r => (r.source_event_id, r.target_event_id)) = [("a", "b")] ∧
    (correlateEvents ⟨[tieApiEvent, tieUiEvent], .fin 5000, .fin (1/2)⟩).map
        (fun r => (r.source_event_id, r.target_event_id)) = [] := by
  simp [correlateEvents, correlateUiToApi, insertionSort, insSortAux, revIns,
    eventIsLess, timestampCmp, F.partialCmp, scanSources, scanTargets, F.sub,
    F.gtb, F.geb, F.ltb, F.minF, F.isNan, calculateConfidence,
    calculateDataSimilarity, areCompatibleTypes, shouldCorrelate, F.add, F.mul,
    F.div, dataKeys, List.lookup, List.flatMap, List.filterMap, List.countP, List.countP.go,
    String.reduceEq, String.reduceBEq,
    normTypeUiApi, normTypeUiNav, uiEvent, apiEvent, nanNavEvent,
    nanMixCorrelator, uiScreenEvent, navScreenEvent, nanUiEvent, finApiEvent,
    tieUiEvent, tieApiEvent]
  all_goals norm_num

/-- C7: with exactly `uiEvent` (UI, t=1000) and `apiEvent` (API_CALL, t=1050),
window 5000 and min confidence 0.5, the engine returns exactly one
correlation u1 → a1 with `time_delta_ms = 50` and confidence
0.4·(1 − 50/5000) + 0.3 + 0 = 0.696 = 87/125. -/
theorem c7_scenario_one :
    correlateEvents ⟨[uiEvent, apiEvent], .fin 5000, .fin (1/2)⟩ =
      [⟨"u1", "a1", .fin (87/125), .fin 50, "UI_INTERACTION_API_CALL"⟩] ∧
    F.fin (87/125) = .fin (696/1000) := by
  simp [correlateEvents, insertionSort, insSortAux, revIns,
    eventIsLess, timestampCmp, F.partialCmp, scanSources, scanTargets, F.sub,
    F.gtb, F.geb, F.ltb, F.minF, F.isNan, calculateConfidence,
    calculateDataSimilarity, areCompatibleTypes, shouldCorrelate, F.add, F.mul,
    F.div, dataKeys, String.reduceEq, String.reduceBEq, normTypeUiApi,
    uiEvent, apiEvent]
  all_goals norm_num

/-- C6: `should_correlate` is true exactly on the five ordered type pairs of
the allow-list, and false on every identical-type pair. -/
theorem c6_should_correlate_characterization :
    (∀ s t : String, shouldCorrelate s t = true ↔
      ((s, t) = ("UI_INTERACTION", "API_CALL") ∨
       (s, t) = ("API_CALL", "API_RESPONSE") ∨
       (s, t) = ("API_RESPONSE", "NAVIGATION") ∨
       (s, t) = ("API_RESPONSE", "SCREEN_CHANGE") ∨
       (s, t) = ("UI_INTERACTION", "NAVIGATION"))) ∧
    (∀ x : String, shouldCorrelate x x = false) := by
  constructor
  · intro s t
    simp only [shouldCorrelate, Bool.or_eq_true, Bool.and_eq_true, beq_iff_eq,
      Prod.mk.injEq]
    tauto
  · intro x
    by_cases h1 : x = "UI_INTERACTION" <;>
      by_cases h2 : x = "API_CALL" <;>
      by_cases h3 : x = "API_RESPONSE" <;>
      simp_all [shouldCorrelate]

/-- C8: the main scan is a pure function of the event snapshot and the two
thresholds: correlators with equal stores and equal thresholds produce
identical ordered correlation lists. -/
theorem c8_correlate_deterministic (c₁ c₂ : RustCorrelator)
    (hev : c₁.events = c₂.events)
    (hmax : c₁.max_time_delta_ms = c₂.max_time_delta_ms)
    (hmin : c₁.min_confidence = c₂.min_confidence) :
    correlateEvents c₁ = correlateEvents c₂ := by
  unfold correlateEvents
  rw [hev, hmax, hmin]

/-- Witness for C8 at a concrete snapshot. -/
theorem c8_correlate_deterministic_witness :
    correlateEvents ⟨[uiEvent, apiEvent], .fin 5000, .fin (1/2)⟩ =
      correlateEvents ⟨[uiEvent, apiEvent], .fin 5000, .fin (1/2)⟩ :=
  c8_correlate_deterministic _ _ rfl rfl rfl

/-- C9: whenever the scan yields no correlations (in particular on an empty
store), `get_statistics` reports zero totals, `0.0` averages (no division is
attempted), and an empty by-type table. -/
theorem c9_statistics_zero (c : RustCorrelator)
    (h : correlateEvents c = []) :
    getStatistics c = ⟨0, .fin 0, .fin 0, []⟩ := by
  simp [getStatistics, h]

/-- Witness for C9: the empty event store. -/
theorem c9_statistics_zero_witness :
    getStatistics ⟨[], .fin 5000, .fin (1/2)⟩ = ⟨0, .fin 0, .fin 0, []⟩ :=
  c9_statistics_zero _ rfl


/-- C5 amended: permutation invariance holds once the counterexample's two
failure sources are excluded: if no event timestamp is NaN and all timestamps
are pairwise distinct, permuting the insertion order leaves the entire
ordered correlation output (hence the set of (source id, target id) pairs)
unchanged. -/
theorem c5_perm_invariant_of_distinct_finite (c₁ c₂ : RustCorrelator)
    (hperm : c₁.events.Perm c₂.events)
    (hmax : c₁.max_time_delta_ms = c₂.max_time_delta_ms)
    (hmin : c₁.min_confidence = c₂.min_confidence)
    (hnan : ∀ e ∈ c₁.events, e.timestamp.isNan = false)
    (hdist : c₁.events.Pairwise (fun a b => a.timestamp ≠ b.timestamp)) :
    correlateEvents c₁ = correlateEvents c₂ := by
  unfold correlateEvents
  rw [insertionSort_eq_of_perm c₁.events c₂.events hperm hnan hdist, hmax, hmin]

/-- Witness for the amended C5: swapping the insertion order of the two
Scenario-1 events (distinct finite timestamps) leaves the output unchanged. -/
theorem c5_perm_invariant_witness :
    correlateEvents ⟨[uiEvent, apiEvent], .fin 5000, .fin (1/2)⟩ =
      correlateEvents ⟨[apiEvent, uiEvent], .fin 5000, .fin (1/2)⟩ :=
  c5_perm_invariant_of_distinct_finite _ _
    (List.Perm.swap apiEvent uiEvent []) rfl rfl
    (by simp [uiEvent, apiEvent, F.isNan])
    (by norm_num [uiEvent, apiEvent])

/-- Boolean equality on optional values is symmetric. -/
theorem beqOptionComm (x y : Option String) : (x == y) = (y == x) := by
  by_cases h : x = y
  · subst h; simp
  · rw [beq_eq_false_iff_ne.mpr h, beq_eq_false_iff_ne.mpr (Ne.symm h)]

/-- C10: `calculate_data_similarity` is symmetric. The HashMap key sets are
modelled as association lists; `Nodup` on the key lists is the HashMap's
key-uniqueness invariant. The shared-key sets of the two orientations are
permutations of each other, value equality is symmetric, so the matching
count and the shared-key count agree. -/
theorem c10_data_similarity_symm (a b : Event)
    (ha : (dataKeys a.data).Nodup) (hb : (dataKeys b.data).Nodup) :
    calculateDataSimilarity a b = calculateDataSimilarity b a := by
  unfold calculateDataSimilarity
  by_cases hae : a.data.isEmpty <;> by_cases hbe : b.data.isEmpty <;>
    simp only [hae, hbe, Bool.true_or, Bool.or_true, Bool.false_or,
      Bool.or_false, if_true, if_false]
  have hKa : ((dataKeys a.data).filter
      (fun k => (dataKeys b.data).contains k)).Nodup := ha.filter _
  have hKb : ((dataKeys b.data).filter
      (fun k => (dataKeys a.data).contains k)).Nodup := hb.filter _
  have hperm : ((dataKeys a.data).filter
        (fun k => (dataKeys b.data).contains k)).Perm
      ((dataKeys b.data).filter (fun k => (dataKeys a.data).contains k)) := by
    refine (List.perm_ext_iff_of_nodup hKa hKb).mpr ?_
    intro k
    simp only [List.mem_filter, List.elem_eq_mem, decide_eq_true_eq]
    tauto
  by_cases hKaE : ((dataKeys a.data).filter
      (fun k => (dataKeys b.data).contains k)).isEmpty
  · have hKanil := List.isEmpty_iff.mp hKaE
    have hKbnil : ((dataKeys b.data).filter
        (fun k => (dataKeys a.data).contains k)) = [] :=
      ((hKanil ▸ hperm).symm).eq_nil
    rw [if_pos hKaE, if_pos (List.isEmpty_iff.mpr hKbnil)]
  · have hKbE : ¬ ((dataKeys b.data).filter
        (fun k => (dataKeys a.data).contains k)).isEmpty = true := by
      intro hcon
      exact hKaE (List.isEmpty_iff.mpr
        ((hperm.trans ((List.isEmpty_iff.mp hcon) ▸ List.Perm.refl _)).eq_nil))
    rw [if_neg hKaE, if_neg hKbE]
    have hlen := hperm.length_eq
    have hcount : ((dataKeys a.data).filter
          (fun k => (dataKeys b.data).contains k)).countP
        (fun k => List.lookup k a.data == List.lookup k b.data) =
        ((dataKeys b.data).filter
          (fun k => (dataKeys a.data).contains k)).countP
        (fun k => List.lookup k b.data == List.lookup k a.data) := by
      rw [hperm.countP_eq]
      exact List.countP_congr (fun k _ => by rw [beqOptionComm])
    rw [hcount, hlen]

/-- Witness for C10 at the Scenario-2 events (singleton data maps). -/
theorem c10_data_similarity_symm_witness :
    calculateDataSimilarity uiScreenEvent navScreenEvent =
      calculateDataSimilarity navScreenEvent uiScreenEvent :=
  c10_data_similarity_symm _ _ (by simp [uiScreenEvent, dataKeys])
    (by simp [navScreenEvent, dataKeys])
